import Mathlib

/-!
Shallow embedding of `LM75A_sense_i2c_v5.ino` (LM75A temperature-sensor
firmware).  Pure data is translated directly; the effectful Arduino calls
are made explicit:

* `Serial.print`/`Serial.println` become a `List String` of emitted
  payloads (a `println` payload carries a trailing newline);
* `Wire` traffic becomes a `List I2CEvent` trace;
* the environment's responses (the byte count returned by
  `Wire.requestFrom`, the byte delivered by `Wire.read`, the status
  returned by `Wire.endTransmission`, the level of pin 13) are passed in
  as explicit inputs.

C `int` values are modelled as `Int` (the claims only involve values far
from any machine-width bound), and `byte` values as `Nat` with an
explicit reduction mod 256 where the source narrows to `uint8_t`.
-/

/-- One I2C bus action issued through the `Wire` API. -/
inductive I2CEvent where
  | beginTransmission (addr : Nat)
  | write (b : Nat)
  | endTransmission
  | requestFrom (addr : Nat) (quantity : Nat)
  deriving DecidableEq

/-- The firmware's global mutable variables (lines 15–25 of the source). -/
structure State where
  temp_c : Nat
  temp_f : Nat
  outputFlag : Int
  user_T_OS : Int
  user_T_hyst : Int
  loop_delay : Int
  deriving DecidableEq

/-- Responses the hardware gives during one `readTemperature` call:
the count returned by `Wire.requestFrom(0x48, 2)`, the byte returned by
`Wire.read()`, and whether `digitalRead(13)` reads HIGH. -/
structure DeviceInput where
  bytesReceived : Nat
  firstByte : Nat
  pin13High : Bool
  deriving DecidableEq

/-- Environment responses consumed by one `processCommand` call:
`wStatus` is the (ignored) status of the `Wire.endTransmission` that
closes a payload write, `sbStatus` the status of the
`Wire.endTransmission` inside `change_to_temp_reg`. -/
structure Env where
  dev : DeviceInput
  wStatus : Int
  sbStatus : Int
  deriving DecidableEq

/-- C `isspace` on the ASCII range, as used by Arduino `String.trim`. -/
def isSpaceChar (c : Char) : Bool :=
  c == ' ' || c == '\t' || c == '\n' || c == '\x0b' || c == '\x0c' || c == '\r'

/-- Arduino `String.trim()`: strip `isspace` characters from both ends. -/
def aTrim (l : List Char) : List Char :=
  ((l.dropWhile isSpaceChar).reverse.dropWhile isSpaceChar).reverse

/-- Arduino `String.startsWith(p)`: `p` is a character-for-character
prefix of the buffer. -/
def aStartsWith (s p : List Char) : Bool :=
  p.isPrefixOf s

/-- Digit-accumulation phase of C `atol`: consume decimal digits,
stopping at the first non-digit. -/
def digitsVal : List Char → Int → Int
  | [], acc => acc
  | c :: r, acc =>
      if c.isDigit then digitsVal r (acc * 10 + ((c.toNat : Int) - 48)) else acc

/-- Sign-handling phase of C `atol`, applied after whitespace
skipping: one optional `-` or `+`, then digit accumulation.  (A leading
non-digit, or an empty rest, accumulates nothing and yields 0.) -/
def atolSigned (s : List Char) : Int :=
  if s.head? = some '-' then - digitsVal (s.drop 1) 0
  else if s.head? = some '+' then digitsVal (s.drop 1) 0
  else digitsVal s 0

/-- C `atol`, which implements Arduino `String.toInt()`: skip leading
whitespace, accept one optional sign, then accumulate digits; a string
with no leading digits converts to 0. -/
def atol (l : List Char) : Int :=
  atolSigned (l.dropWhile isSpaceChar)

/-- Whether `atol` would find a leading digit (after whitespace and an
optional sign).  `false` means the argument text is non-numeric and
`atol` yields 0. -/
def isNumericStart (l : List Char) : Bool :=
  let s := l.dropWhile isSpaceChar
  if s.head? = some '-' ∨ s.head? = some '+' then
    ((s.drop 1).head?.map Char.isDigit).getD false
  else (s.head?.map Char.isDigit).getD false

/-- Argument extraction shared by the `SET_OS` / `SET_DELAY` / `SET_HYST`
branches of `processCommand`: take the substring after the command word
(`substring(n)`), trim it, and if an `=` is present keep only what
follows the first `=`. -/
def argChars (cmd : List Char) (n : Nat) : List Char :=
  let s := aTrim (cmd.drop n)
  match s.findIdx? (· == '=') with
  | some i => s.drop (i + 1)
  | none => s

/-- The integer value of the argument of a threshold/delay command
(`String.toInt()` applied to the extracted argument text). -/
def parseArg (cmd : List Char) (n : Nat) : Int :=
  atol (argChars cmd n)

/-- Narrowing of a C `int` to `uint8_t`, as done by `Wire.write(int)`. -/
def toByte (v : Int) : Nat :=
  (v % 256).toNat

/-- Round-to-nearest-even division by `2 ^ s` (the rounding step of IEEE
double arithmetic). -/
def rneDiv (p s : Nat) : Nat :=
  let q := p / 2 ^ s
  let r := p % 2 ^ s
  if 2 * r < 2 ^ s then q
  else if 2 ^ s < 2 * r then q + 1
  else if q % 2 = 0 then q else q + 1

/-- Fuel-driven floor of the base-2 logarithm (`log2Fuel n n = ⌊log₂ n⌋`
for `n ≥ 1`); written with explicit fuel so it reduces inside the
kernel. -/
def log2Fuel : Nat → Nat → Nat
  | 0, _ => 0
  | f + 1, n => if 2 ≤ n then log2Fuel f (n / 2) + 1 else 0

/-- Round a non-negative real of the form `p / 2 ^ 52` to the nearest
IEEE double (round-to-nearest-even), returning the numerator of the
result over the same denominator `2 ^ 52`.  Valid on the value range of
this program (no overflow, and values below 1 are already exact at this
scale). -/
def fpRound52 (p : Nat) : Nat :=
  let e := log2Fuel p p
  if e ≤ 52 then p
  else rneDiv p (e - 52) * 2 ^ (e - 52)

/-- The IEEE double nearest to the literal `1.8`, scaled by `2 ^ 52`;
`1.8 * 2 ^ 52 = 8106479329266892.8` rounds up to this significand. -/
def double18num : Nat := 8106479329266893

/-- The value the assignment `temp_f = ((temp_c * 1.8) + 32);` stores:
`temp_c` is multiplied by the double `1.8` (rounded), `32` is added
(rounded), and the double is narrowed to `byte` by truncation toward
zero.  For `c ≥ 125` the real result exceeds 255 and the C conversion
is out of range; the `% 256` here is a modelling choice for that
unspecified case and no theorem relies on it. -/
def temp_f_val (c : Nat) : Nat :=
  (fpRound52 (fpRound52 (c * double18num) + 32 * 2 ^ 52) / 2 ^ 52) % 256

/-- `readTemperature()` (lines 183–207): request 2 bytes from address
0x48; on a count of exactly 2 store the first byte as Celsius, derive
Fahrenheit, and print the reading; on any other count print the
ByteMismatchError line and leave the stored reading alone. -/
def readTemperature (st : State) (dev : DeviceInput) :
    State × List String × List I2CEvent :=
  if dev.bytesReceived = 2 then
    let tc := dev.firstByte
    let tf := temp_f_val tc
    let pinStateStr : String := if dev.pin13High then "LOW" else "HIGH"
    ({ st with temp_c := tc, temp_f := tf },
     ["Temperature: ", toString tc, "C; ", toString tf, "F; OS: ",
      toString st.user_T_OS, "C; Hyst: ", toString st.user_T_hyst,
      "C; Overtemp Signal: ", pinStateStr ++ "\n"],
     [I2CEvent.requestFrom 0x48 2])
  else
    (st,
     ["~~~ ByteMismatchError: Bytes Received: ",
      toString dev.bytesReceived ++ "\n"],
     [I2CEvent.requestFrom 0x48 2])

/-- `change_to_temp_reg()` (lines 260–271): select register 0x00 and
report whether the switch-back transaction succeeded (`sb` is the
`Wire.endTransmission` status). -/
def change_to_temp_reg (sb : Int) : List String × List I2CEvent :=
  (["Switching to temp_register...\n"] ++
     (if sb ≠ 0 then ["~~~ Error switching back!\n\n"]
      else if sb = 0 then ["~~~ Switching back success!\n\n"]
      else []),
   [I2CEvent.beginTransmission 0x48, I2CEvent.write 0x00,
    I2CEvent.endTransmission])

/-- `change_to_configuration_reg()` (lines 279–283). -/
def change_to_configuration_reg : List String × List I2CEvent :=
  (["Switching to config_register...\n"],
   [I2CEvent.beginTransmission 0x48, I2CEvent.write 0x01])

/-- `change_to_tHyst_reg()` (lines 291–295). -/
def change_to_tHyst_reg : List String × List I2CEvent :=
  (["Switching to tHyst_register...\n"],
   [I2CEvent.beginTransmission 0x48, I2CEvent.write 0x02])

/-- `change_to_OS_reg()` (lines 303–307). -/
def change_to_OS_reg : List String × List I2CEvent :=
  (["Switching to OS_register...\n"],
   [I2CEvent.beginTransmission 0x48, I2CEvent.write 0x03])

/-- `change_OS_temp(custom_T_os)` (lines 217–230): clamp to [0,127],
select the T_os register, write the clamped byte, end the transaction
(status ignored), then switch back to the temperature register. -/
def change_OS_temp (v _w sb : Int) : List String × List I2CEvent :=
  let v' := if v < 0 then 0 else if v > 127 then 127 else v
  let a := change_to_OS_reg
  let b := change_to_temp_reg sb
  (a.1 ++ b.1,
   a.2 ++ [I2CEvent.write (toByte v'), I2CEvent.endTransmission] ++ b.2)

/-- `change_tHyst_temp(custom_T_hyst)` (lines 240–252). -/
def change_tHyst_temp (v _w sb : Int) : List String × List I2CEvent :=
  let v' := if v < 0 then 0 else if v > 127 then 127 else v
  let a := change_to_tHyst_reg
  let b := change_to_temp_reg sb
  (a.1 ++ b.1,
   a.2 ++ [I2CEvent.write (toByte v'), I2CEvent.endTransmission] ++ b.2)

/-- `setConfigConditions()` (lines 328–337): write 0x08 to the
configuration register, switch back to the temperature register, then
report completion. -/
def setConfigConditions (_w sb : Int) : List String × List I2CEvent :=
  let a := change_to_configuration_reg
  let b := change_to_temp_reg sb
  (a.1 ++ b.1 ++
     ["Device Configuration complete: 0x08\n",
      "Configuration: 2 OS faults, OS Active-Low, Comparator Mode, not in low-power mode\n"],
   a.2 ++ [I2CEvent.write 0x08, I2CEvent.endTransmission] ++ b.2)

/-- The lines printed by `printHelpMenu()` (lines 315–326). -/
def helpMenu : List String :=
  ["\n---------------------------------------------------------------\n",
   "Commands:\n",
   "  SET_OS <value> - Set Overtemp Signal threshold (0-127)\n",
   "  SET_DELAY <ms> - Set loop delay in milliseconds\n",
   "  SET_HYST <value> - Set T_hyst value (0 - 127)\n",
   "  GET_TEMP - Output current temperature to terminal\n",
   "  PAUSE - Pauses temp polling until START command is typed in\n",
   "  START - Starts temp polling until PAUSE command is typed in\n",
   "  HELP - Output list of valid commands\n",
   "---------------------------------------------------------------\n\n"]

/-- The command words matched by `String.startsWith` in
`processCommand`'s else-if chain. -/
def sSET_OS : List Char := ("SET_OS").data

def sSET_DELAY : List Char := ("SET_DELAY").data

def sHELP : List Char := ("HELP").data

def sGET_TEMP : List Char := ("GET_TEMP").data

def sSET_HYST : List Char := ("SET_HYST").data

def sPAUSE : List Char := ("PAUSE").data

def sSTART : List Char := ("START").data

/-- `processCommand(command)` (lines 76–175), the else-if chain over
command word matches, in source order. -/
def processCommand (st : State) (cmd : List Char) (env : Env) :
    State × List String × List I2CEvent :=
  if aStartsWith cmd sSET_OS then
    let x := parseArg cmd 7
    if x < 0 ∨ x > 127 then
      (st,
       ["Error: Overtemp threshold out of range. Please enter a value between 0 and 127.\n"],
       [])
    else
      let a := change_OS_temp x env.wStatus env.sbStatus
      ({ st with user_T_OS := x },
       a.1 ++ ["Overtemp threshold set to: ", toString x ++ "\n"],
       a.2)
  else if aStartsWith cmd sSET_DELAY then
    let d := parseArg cmd 10
    if d ≤ 0 then
      (st,
       ["Error: Invalid delay entered. Please enter a positive integer.\n"],
       [])
    else
      let d' := if d < 10 then 10 else d
      ({ st with loop_delay := d' },
       (if d < 10 then
          ["Warning: New delay entered is lower than the minimum allowed. New delay has been rounded up to the minimum (10ms).\n"]
        else []) ++
         ["Loop delay set to: ", toString d' ++ "\n"],
       [])
  else if aStartsWith cmd sHELP then
    (st, helpMenu, [])
  else if aStartsWith cmd sGET_TEMP then
    readTemperature st env.dev
  else if aStartsWith cmd sSET_HYST then
    let x := parseArg cmd 9
    if x < 0 ∨ x > 127 then
      (st,
       ["Error: Hyst value out of range. Please enter a value between 0 and 127.\n"],
       [])
    else
      let a := change_tHyst_temp x env.wStatus env.sbStatus
      ({ st with user_T_hyst := x },
       a.1 ++ ["T_hyst set to: ", toString x ++ "\n"],
       a.2)
  else if aStartsWith cmd sPAUSE then
    ({ st with outputFlag := 0 }, [], [])
  else if aStartsWith cmd sSTART then
    ({ st with outputFlag := 1 }, [], [])
  else
    (st, ["Error - Unknown command: ", String.mk cmd ++ "\n"], [])

/-- One iteration of `loop()` (lines 47–62): a periodic read when
`outputFlag == 1`, then (if a line is available) trim it and process
it. -/
def loopIter (st : State) (inp : Option (List Char)) (env : Env) :
    State × List String × List I2CEvent :=
  let a := if st.outputFlag = 1 then readTemperature st env.dev else (st, [], [])
  match inp with
  | some cmd =>
      let b := processCommand a.1 (aTrim cmd) env
      (b.1, a.2.1 ++ b.2.1, a.2.2 ++ b.2.2)
  | none => a

/-- A run of consecutive `loop()` iterations, each with its own optional
input line and environment responses. -/
def runLoop (st : State) :
    List (Option (List Char) × Env) → State × List String × List I2CEvent
  | [] => (st, [], [])
  | (inp, env) :: rest =>
      let a := loopIter st inp env
      let b := runLoop a.1 rest
      (b.1, a.2.1 ++ b.2.1, a.2.2 ++ b.2.2)

/-- `setup()` (lines 27–45) together with the global initializers
(lines 15–25): the state the firmware is in when `loop()` first runs,
plus the serial and I2C traffic setup emits.  The four `Int` inputs are
the transaction statuses the environment returns during the two
configuration calls. -/
def setup (w1 sb1 w2 sb2 : Int) : State × List String × List I2CEvent :=
  let a := change_OS_temp 30 w1 sb1
  let b := setConfigConditions w2 sb2
  ({ temp_c := 0, temp_f := 0, outputFlag := 0, user_T_OS := 30,
     user_T_hyst := 29, loop_delay := 1000 },
   ["\nInitializing...\n"] ++ a.1 ++ b.1 ++ ["Ready for commands:\n"] ++ helpMenu,
   a.2 ++ b.2)

/-- Number of `Wire.requestFrom` transactions in a trace; the source
issues one such transaction exactly inside `readTemperature`, so this
counts `readTemperature` executions. -/
def countReq (l : List I2CEvent) : Nat :=
  l.countP fun e => match e with
    | I2CEvent.requestFrom _ _ => true
    | _ => false

/-- Whether a (already trimmed) command line reaches the `GET_TEMP`
branch of `processCommand`. -/
def isGetTempCmd (cmd : List Char) : Bool :=
  !aStartsWith cmd sSET_OS && !aStartsWith cmd sSET_DELAY &&
    !aStartsWith cmd sHELP && aStartsWith cmd sGET_TEMP

/-- Number of iterations of a run whose input line reaches the
`GET_TEMP` branch. -/
def countGetTemp (inputs : List (Option (List Char) × Env)) : Nat :=
  inputs.countP fun p => match p.1 with
    | some c => isGetTempCmd (aTrim c)
    | none => false

/-- Modelled from the spec: the spec's claimed Fahrenheit formula
`round(celsius*1.8+32)`, to be compared against the value the source
stores. -/
def specRoundF (c : Nat) : Int :=
  round ((c : ℚ) * 1.8 + 32)

/-- A sample pre-state for concrete evaluations (the post-`setup`
state). -/
def stDemo : State :=
  { temp_c := 0, temp_f := 0, outputFlag := 0, user_T_OS := 30,
    user_T_hyst := 29, loop_delay := 1000 }

/-- A sample environment for concrete evaluations. -/
def envDemo : Env :=
  { dev := { bytesReceived := 2, firstByte := 25, pin13High := true },
    wStatus := 0, sbStatus := 0 }

/-! ### Helper lemmas -/

/-- A successful `startsWith` exposes the command word as a literal
front segment of the buffer. -/
lemma startsWith_split {p l : List Char} (h : p.isPrefixOf l = true) :
    ∃ t, l = p ++ t := by
  simp at h
  obtain ⟨t, ht⟩ := h
  exact ⟨t, ht.symm⟩

/-- A `SET_DELAY` line does not match the earlier `SET_OS` guard. -/
lemma excl_SET_DELAY {l : List Char} (h : aStartsWith l sSET_DELAY = true) :
    aStartsWith l sSET_OS = false := by
  obtain ⟨t, rfl⟩ := startsWith_split h
  rfl

/-- A `SET_HYST` line matches none of the four guards placed before it. -/
lemma excl_SET_HYST {l : List Char} (h : aStartsWith l sSET_HYST = true) :
    aStartsWith l sSET_OS = false ∧ aStartsWith l sSET_DELAY = false ∧
      aStartsWith l sHELP = false ∧ aStartsWith l sGET_TEMP = false := by
  obtain ⟨t, rfl⟩ := startsWith_split h
  exact ⟨rfl, rfl, rfl, rfl⟩

/-- A `GET_TEMP` line matches none of the three guards placed before it. -/
lemma excl_GET_TEMP {l : List Char} (h : aStartsWith l sGET_TEMP = true) :
    aStartsWith l sSET_OS = false ∧ aStartsWith l sSET_DELAY = false ∧
      aStartsWith l sHELP = false := by
  obtain ⟨t, rfl⟩ := startsWith_split h
  exact ⟨rfl, rfl, rfl⟩

/-- A `PAUSE` line matches none of the five guards placed before it. -/
lemma excl_PAUSE {l : List Char} (h : aStartsWith l sPAUSE = true) :
    aStartsWith l sSET_OS = false ∧ aStartsWith l sSET_DELAY = false ∧
      aStartsWith l sHELP = false ∧ aStartsWith l sGET_TEMP = false ∧
      aStartsWith l sSET_HYST = false := by
  obtain ⟨t, rfl⟩ := startsWith_split h
  exact ⟨rfl, rfl, rfl, rfl, rfl⟩

/-- Behaviour of the `SET_OS` branch on an in-range argument. -/
lemma pc_setOS_in (st : State) (cmd : List Char) (env : Env)
    (h : aStartsWith cmd sSET_OS = true)
    (h0 : 0 ≤ parseArg cmd 7) (h1 : parseArg cmd 7 ≤ 127) :
    processCommand st cmd env =
      ({ st with user_T_OS := parseArg cmd 7 },
       (change_OS_temp (parseArg cmd 7) env.wStatus env.sbStatus).1 ++
         ["Overtemp threshold set to: ", toString (parseArg cmd 7) ++ "\n"],
       (change_OS_temp (parseArg cmd 7) env.wStatus env.sbStatus).2) := by
  have hneg : ¬(parseArg cmd 7 < 0 ∨ parseArg cmd 7 > 127) := by omega
  simp [processCommand, h, hneg]

/-- Behaviour of the `SET_OS` branch on an out-of-range argument. -/
lemma pc_setOS_out (st : State) (cmd : List Char) (env : Env)
    (h : aStartsWith cmd sSET_OS = true)
    (hr : parseArg cmd 7 < 0 ∨ 127 < parseArg cmd 7) :
    processCommand st cmd env =
      (st,
       ["Error: Overtemp threshold out of range. Please enter a value between 0 and 127.\n"],
       []) := by
  simp [processCommand, h, hr]

/-- Behaviour of the `SET_HYST` branch on an in-range argument. -/
lemma pc_setHyst_in (st : State) (cmd : List Char) (env : Env)
    (h : aStartsWith cmd sSET_HYST = true)
    (h0 : 0 ≤ parseArg cmd 9) (h1 : parseArg cmd 9 ≤ 127) :
    processCommand st cmd env =
      ({ st with user_T_hyst := parseArg cmd 9 },
       (change_tHyst_temp (parseArg cmd 9) env.wStatus env.sbStatus).1 ++
         ["T_hyst set to: ", toString (parseArg cmd 9) ++ "\n"],
       (change_tHyst_temp (parseArg cmd 9) env.wStatus env.sbStatus).2) := by
  obtain ⟨e1, e2, e3, e4⟩ := excl_SET_HYST h
  have hneg : ¬(parseArg cmd 9 < 0 ∨ parseArg cmd 9 > 127) := by omega
  simp [processCommand, h, e1, e2, e3, e4, hneg]

/-- Behaviour of the `SET_HYST` branch on an out-of-range argument. -/
lemma pc_setHyst_out (st : State) (cmd : List Char) (env : Env)
    (h : aStartsWith cmd sSET_HYST = true)
    (hr : parseArg cmd 9 < 0 ∨ 127 < parseArg cmd 9) :
    processCommand st cmd env =
      (st,
       ["Error: Hyst value out of range. Please enter a value between 0 and 127.\n"],
       []) := by
  obtain ⟨e1, e2, e3, e4⟩ := excl_SET_HYST h
  simp [processCommand, h, e1, e2, e3, e4, hr]

/-- Behaviour of the `GET_TEMP` branch. -/
lemma pc_getTemp (st : State) (cmd : List Char) (env : Env)
    (h : aStartsWith cmd sGET_TEMP = true) :
    processCommand st cmd env = readTemperature st env.dev := by
  obtain ⟨e1, e2, e3⟩ := excl_GET_TEMP h
  simp [processCommand, h, e1, e2, e3]

/-- Behaviour of the `PAUSE` branch. -/
lemma pc_pause (st : State) (cmd : List Char) (env : Env)
    (h : aStartsWith cmd sPAUSE = true) :
    processCommand st cmd env = ({ st with outputFlag := 0 }, [], []) := by
  obtain ⟨e1, e2, e3, e4, e5⟩ := excl_PAUSE h
  simp [processCommand, h, e1, e2, e3, e4, e5]

/-- Behaviour of the `SET_DELAY` branch on a non-positive argument. -/
lemma pc_setDelay_nonpos (st : State) (cmd : List Char) (env : Env)
    (h : aStartsWith cmd sSET_DELAY = true)
    (hd : parseArg cmd 10 ≤ 0) :
    processCommand st cmd env =
      (st,
       ["Error: Invalid delay entered. Please enter a positive integer.\n"],
       []) := by
  have e1 := excl_SET_DELAY h
  simp [processCommand, h, e1, hd]

/-- Behaviour of the `SET_DELAY` branch on an argument below the 10 ms
floor. -/
lemma pc_setDelay_low (st : State) (cmd : List Char) (env : Env)
    (h : aStartsWith cmd sSET_DELAY = true)
    (h0 : 0 < parseArg cmd 10) (h10 : parseArg cmd 10 < 10) :
    processCommand st cmd env =
      ({ st with loop_delay := 10 },
       ["Warning: New delay entered is lower than the minimum allowed. New delay has been rounded up to the minimum (10ms).\n",
        "Loop delay set to: ", toString (10 : Int) ++ "\n"],
       []) := by
  have e1 := excl_SET_DELAY h
  have hd : ¬ parseArg cmd 10 ≤ 0 := by omega
  simp [processCommand, h, e1, hd, h10]

/-- Behaviour of the `SET_DELAY` branch on an argument at or above the
10 ms floor. -/
lemma pc_setDelay_ok (st : State) (cmd : List Char) (env : Env)
    (h : aStartsWith cmd sSET_DELAY = true)
    (h10 : 10 ≤ parseArg cmd 10) :
    processCommand st cmd env =
      ({ st with loop_delay := parseArg cmd 10 },
       ["Loop delay set to: ", toString (parseArg cmd 10) ++ "\n"],
       []) := by
  have e1 := excl_SET_DELAY h
  have hd : ¬ parseArg cmd 10 ≤ 0 := by omega
  have hw : ¬ parseArg cmd 10 < 10 := by omega
  simp [processCommand, h, e1, hd, hw]

/-- Behaviour of the final (unknown-command) branch. -/
lemma pc_unknown (st : State) (cmd : List Char) (env : Env)
    (h1 : aStartsWith cmd sSET_OS = false)
    (h2 : aStartsWith cmd sSET_DELAY = false)
    (h3 : aStartsWith cmd sHELP = false)
    (h4 : aStartsWith cmd sGET_TEMP = false)
    (h5 : aStartsWith cmd sSET_HYST = false)
    (h6 : aStartsWith cmd sPAUSE = false)
    (h7 : aStartsWith cmd sSTART = false) :
    processCommand st cmd env =
      (st, ["Error - Unknown command: ", String.mk cmd ++ "\n"], []) := by
  simp [processCommand, h1, h2, h3, h4, h5, h6, h7]

/-- `digitsVal` accumulates nothing when the text has no leading
digit. -/
lemma digitsVal_zero_of_head {r : List Char} (a : Int)
    (h : (r.head?.map Char.isDigit).getD false = false) : digitsVal r a = a := by
  cases r with
  | nil => rfl
  | cons d r' =>
    simp only [List.head?, Option.map, Option.getD] at h
    rw [digitsVal, if_neg (by simp [h])]

/-- `atol` yields 0 on any text with no leading digit. -/
lemma atol_eq_zero_of_nonNumeric {l : List Char}
    (h : isNumericStart l = false) : atol l = 0 := by
  simp only [isNumericStart] at h
  rw [atol, atolSigned]
  by_cases hm : (l.dropWhile isSpaceChar).head? = some '-'
  · rw [if_pos (Or.inl hm)] at h
    rw [if_pos hm, digitsVal_zero_of_head 0 h]
    rfl
  · by_cases hp : (l.dropWhile isSpaceChar).head? = some '+'
    · rw [if_pos (Or.inr hp)] at h
      rw [if_neg hm, if_pos hp, digitsVal_zero_of_head 0 h]
    · rw [if_neg (by tauto)] at h
      rw [if_neg hm, if_neg hp, digitsVal_zero_of_head 0 h]

/-- `processCommand` never raises `outputFlag` unless the command is a
`START` line, and the number of `Wire.requestFrom` transactions it
issues is 1 on the `GET_TEMP` branch and 0 everywhere else. -/
lemma pc_flag_count (st : State) (cmd : List Char) (env : Env)
    (hns : aStartsWith cmd sSTART = false) :
    ((processCommand st cmd env).1.outputFlag = st.outputFlag ∨
       (processCommand st cmd env).1.outputFlag = 0) ∧
    countReq (processCommand st cmd env).2.2 =
      (if isGetTempCmd cmd then 1 else 0) := by
  unfold processCommand isGetTempCmd
  by_cases h1 : aStartsWith cmd sSET_OS
  · simp only [h1, if_true, Bool.true_eq_false]
    constructor
    · split
      · exact Or.inl rfl
      · exact Or.inl rfl
    · split <;>
        simp [countReq, change_OS_temp, change_to_OS_reg, change_to_temp_reg, h1]
  · simp only [h1, Bool.false_eq_true, if_false]
    by_cases h2 : aStartsWith cmd sSET_DELAY
    · simp only [h2, if_true]
      constructor
      · split
        · exact Or.inl rfl
        · exact Or.inl rfl
      · split <;> simp [countReq, h1, h2]
    · simp only [h2, Bool.false_eq_true, if_false]
      by_cases h3 : aStartsWith cmd sHELP
      · simp [h3, countReq, h1, h2]
      · simp only [h3, Bool.false_eq_true, if_false]
        by_cases h4 : aStartsWith cmd sGET_TEMP
        · simp only [h4, if_true]
          unfold readTemperature
          constructor
          · split
            · exact Or.inl rfl
            · exact Or.inl rfl
          · split <;> simp [countReq, h1, h2, h3, h4]
        · simp only [h4, Bool.false_eq_true, if_false]
          by_cases h5 : aStartsWith cmd sSET_HYST
          · simp only [h5, if_true]
            constructor
            · split
              · exact Or.inl rfl
              · exact Or.inl rfl
            · split <;>
                simp [countReq, change_tHyst_temp, change_to_tHyst_reg,
                  change_to_temp_reg, h1, h2, h3, h4]
          · simp only [h5, Bool.false_eq_true, if_false]
            by_cases h6 : aStartsWith cmd sPAUSE
            · simp [h6, countReq, h1, h2, h3, h4, h5]
            · simp [h6, hns, countReq, h1, h2, h3, h4, h5]

/-- `readTemperature` issues exactly one `requestFrom` transaction and
no pointer write, on both its branches. -/
lemma readTemperature_events (st : State) (dev : DeviceInput) :
    (readTemperature st dev).2.2 = [I2CEvent.requestFrom 0x48 2] := by
  rw [readTemperature]
  split <;> rfl

/-- `readTemperature` never touches `outputFlag`. -/
lemma readTemperature_flag (st : State) (dev : DeviceInput) :
    (readTemperature st dev).1.outputFlag = st.outputFlag := by
  rw [readTemperature]
  split <;> rfl

/-- With polling paused, an iteration with no input line does nothing. -/
lemma loopIter_none_paused (st : State) (env : Env) (h : st.outputFlag = 0) :
    loopIter st none env = (st, [], []) := by
  simp [loopIter, h]

/-- With polling paused, an iteration reduces to processing its input
line. -/
lemma loopIter_some_paused (st : State) (cmd : List Char) (env : Env)
    (h : st.outputFlag = 0) :
    loopIter st (some cmd) env = processCommand st (aTrim cmd) env := by
  simp [loopIter, h]

/-- While paused and with no `START` line arriving, the loop stays
paused and the only `requestFrom` transactions are the ones forced by
`GET_TEMP` lines. -/
lemma runLoop_paused (st : State) (inputs : List (Option (List Char) × Env))
    (h0 : st.outputFlag = 0)
    (hns : ∀ c e, (some c, e) ∈ inputs → aStartsWith (aTrim c) sSTART = false) :
    (runLoop st inputs).1.outputFlag = 0 ∧
    countReq (runLoop st inputs).2.2 = countGetTemp inputs := by
  induction inputs generalizing st with
  | nil => simp [runLoop, countGetTemp, countReq, h0]
  | cons p rest ih =>
    obtain ⟨inp, env⟩ := p
    have hrest : ∀ c e, (some c, e) ∈ rest → aStartsWith (aTrim c) sSTART = false :=
      fun c e hm => hns c e (List.mem_cons_of_mem _ hm)
    cases inp with
    | none =>
      have hit := loopIter_none_paused st env h0
      have hr := ih st h0 hrest
      constructor
      · rw [runLoop]
        simp only [hit]
        exact hr.1
      · rw [runLoop]
        simp only [hit]
        rw [countReq, List.countP_append, countGetTemp, List.countP_cons]
        have h3 := hr.2
        rw [countReq, countGetTemp] at h3
        simp [h3]
    | some c =>
      have hc := hns c env (List.mem_cons_self _ _)
      have hit := loopIter_some_paused st c env h0
      have hpc := pc_flag_count st (aTrim c) env hc
      have hflag : (processCommand st (aTrim c) env).1.outputFlag = 0 := by
        rcases hpc.1 with h | h
        · rw [h, h0]
        · exact h
      have hr := ih (processCommand st (aTrim c) env).1 hflag hrest
      constructor
      · rw [runLoop]
        simp only [hit]
        exact hr.1
      · rw [runLoop]
        simp only [hit]
        rw [countReq, List.countP_append, countGetTemp, List.countP_cons]
        have h2 := hpc.2
        have h3 := hr.2
        rw [countReq] at h2
        rw [countReq, countGetTemp] at h3
        rw [h2, h3]
        simp [Nat.add_comm]

/-- With polling paused, any number of loop iterations without serial
input leaves the state untouched and produces no output or bus
traffic. -/
lemma runLoop_no_input (st : State) (h : st.outputFlag = 0)
    (envs : List Env) :
    runLoop st (envs.map fun e => (none, e)) = (st, [], []) := by
  induction envs with
  | nil => rfl
  | cons e rest ih =>
    simp [runLoop, loopIter_none_paused st e h, ih]

/-! ### Claim theorems -/

/-- C1: for every `SET_OS` or `SET_HYST` command whose argument parses
to the integer x: if 0 ≤ x ≤ 127 the stored threshold (`user_T_OS`
resp. `user_T_hyst`) becomes x and a confirmation echoing x is printed;
if x < 0 or x > 127 the state is unchanged, an out-of-range error is
reported, and no I2C traffic is issued. -/
theorem setOS_setHyst_range_behaviour (st : State) (cmd : List Char) (env : Env) :
    (aStartsWith cmd sSET_OS = true →
      ((0 ≤ parseArg cmd 7 ∧ parseArg cmd 7 ≤ 127) →
         processCommand st cmd env =
           ({ st with user_T_OS := parseArg cmd 7 },
            (change_OS_temp (parseArg cmd 7) env.wStatus env.sbStatus).1 ++
              ["Overtemp threshold set to: ", toString (parseArg cmd 7) ++ "\n"],
            (change_OS_temp (parseArg cmd 7) env.wStatus env.sbStatus).2)) ∧
      ((parseArg cmd 7 < 0 ∨ 127 < parseArg cmd 7) →
         processCommand st cmd env =
           (st,
            ["Error: Overtemp threshold out of range. Please enter a value between 0 and 127.\n"],
            []))) ∧
    (aStartsWith cmd sSET_HYST = true →
      ((0 ≤ parseArg cmd 9 ∧ parseArg cmd 9 ≤ 127) →
         processCommand st cmd env =
           ({ st with user_T_hyst := parseArg cmd 9 },
            (change_tHyst_temp (parseArg cmd 9) env.wStatus env.sbStatus).1 ++
              ["T_hyst set to: ", toString (parseArg cmd 9) ++ "\n"],
            (change_tHyst_temp (parseArg cmd 9) env.wStatus env.sbStatus).2)) ∧
      ((parseArg cmd 9 < 0 ∨ 127 < parseArg cmd 9) →
         processCommand st cmd env =
           (st,
            ["Error: Hyst value out of range. Please enter a value between 0 and 127.\n"],
            []))) :=
  ⟨fun h => ⟨fun hr => pc_setOS_in st cmd env h hr.1 hr.2,
             fun hr => pc_setOS_out st cmd env h hr⟩,
   fun h => ⟨fun hr => pc_setHyst_in st cmd env h hr.1 hr.2,
             fun hr => pc_setHyst_out st cmd env h hr⟩⟩

/-- Witness for C1: `SET_OS 50` stores 50 and echoes it. -/
theorem setOS_setHyst_range_behaviour_witness :
    parseArg (("SET_OS 50").data) 7 = 50 ∧
    processCommand stDemo (("SET_OS 50").data) envDemo =
      ({ stDemo with user_T_OS := 50 },
       (change_OS_temp 50 0 0).1 ++
         ["Overtemp threshold set to: ", toString (50 : Int) ++ "\n"],
       (change_OS_temp 50 0 0).2) := by
  have hp : parseArg (("SET_OS 50").data) 7 = 50 := by decide
  have h :=
    ((setOS_setHyst_range_behaviour stDemo (("SET_OS 50").data) envDemo).1
      (by decide)).1 (by decide)
  rw [hp] at h
  exact ⟨hp, h⟩

/-- C2: for every `SET_DELAY` command whose argument parses to d: d ≤ 0
leaves `loop_delay` unchanged and reports an error; 0 < d < 10 sets
`loop_delay` to 10 with a warning; d ≥ 10 sets `loop_delay` to d with a
confirmation. -/
theorem setDelay_behaviour (st : State) (cmd : List Char) (env : Env)
    (h : aStartsWith cmd sSET_DELAY = true) :
    (parseArg cmd 10 ≤ 0 →
       processCommand st cmd env =
         (st,
          ["Error: Invalid delay entered. Please enter a positive integer.\n"],
          [])) ∧
    (0 < parseArg cmd 10 → parseArg cmd 10 < 10 →
       processCommand st cmd env =
         ({ st with loop_delay := 10 },
          ["Warning: New delay entered is lower than the minimum allowed. New delay has been rounded up to the minimum (10ms).\n",
           "Loop delay set to: ", toString (10 : Int) ++ "\n"],
          [])) ∧
    (10 ≤ parseArg cmd 10 →
       processCommand st cmd env =
         ({ st with loop_delay := parseArg cmd 10 },
          ["Loop delay set to: ", toString (parseArg cmd 10) ++ "\n"],
          [])) :=
  ⟨fun hd => pc_setDelay_nonpos st cmd env h hd,
   fun h0 h10 => pc_setDelay_low st cmd env h h0 h10,
   fun h10 => pc_setDelay_ok st cmd env h h10⟩

/-- Witness for C2: `SET_DELAY 5` rounds up to the 10 ms floor with a
warning. -/
theorem setDelay_behaviour_witness :
    parseArg (("SET_DELAY 5").data) 10 = 5 ∧
    processCommand stDemo (("SET_DELAY 5").data) envDemo =
      ({ stDemo with loop_delay := 10 },
       ["Warning: New delay entered is lower than the minimum allowed. New delay has been rounded up to the minimum (10ms).\n",
        "Loop delay set to: ", toString (10 : Int) ++ "\n"],
       []) := by
  have h :=
    (setDelay_behaviour stDemo (("SET_DELAY 5").data) envDemo (by decide)).2.1
      (by decide) (by decide)
  exact ⟨by decide, h⟩

/-- C3: `readTemperature` reports ByteMismatchError exactly when the
transport returned a byte count other than 2; the message carries the
actual count, the stored reading survives the error path untouched, and
on a count of exactly 2 `temp_c` becomes the first byte read. -/
theorem readTemperature_byte_mismatch (st : State) (dev : DeviceInput) :
    ((readTemperature st dev).2.1.head? =
        some ("~~~ ByteMismatchError: Bytes Received: ") ↔
      dev.bytesReceived ≠ 2) ∧
    (dev.bytesReceived ≠ 2 →
       readTemperature st dev =
         (st,
          ["~~~ ByteMismatchError: Bytes Received: ",
           toString dev.bytesReceived ++ "\n"],
          [I2CEvent.requestFrom 0x48 2])) ∧
    (dev.bytesReceived = 2 →
       (readTemperature st dev).1.temp_c = dev.firstByte) := by
  by_cases h : dev.bytesReceived = 2
  · refine ⟨?_, fun hn => absurd h hn, fun _ => ?_⟩
    · rw [readTemperature, if_pos h]
      simp only [List.head?]
      constructor
      · intro hh
        exact absurd (Option.some.inj hh) (by decide)
      · intro hn
        exact absurd h hn
    · rw [readTemperature, if_pos h]
  · refine ⟨?_, fun _ => ?_, fun h2 => absurd h2 h⟩
    · rw [readTemperature, if_neg h]
      simp [h]
    · rw [readTemperature, if_neg h]

/-- Witness for C3: a count of 1 produces the error line carrying "1"
and leaves the state alone. -/
theorem readTemperature_byte_mismatch_witness :
    readTemperature stDemo ⟨1, 0, false⟩ =
      (stDemo,
       ["~~~ ByteMismatchError: Bytes Received: ", toString (1 : Nat) ++ "\n"],
       [I2CEvent.requestFrom 0x48 2]) :=
  (readTemperature_byte_mismatch stDemo ⟨1, 0, false⟩).2.1 (by decide)

/-- C4 counterexample: at celsius = 1 the code stores Fahrenheit 33
(truncation of 33.8) while the spec's `round(celsius*1.8+32)` is 34, so
the claimed rounding law fails. -/
theorem fahrenheit_round_counterexample :
    (readTemperature stDemo ⟨2, 1, true⟩).1.temp_f = 33 ∧ specRoundF 1 = 34 := by
  constructor
  · decide
  · norm_num [specRoundF, round_eq]

set_option maxRecDepth 40000 in
/-- C4 (amended): for every celsius in [0,124] the Fahrenheit value
stored and printed is the double computation `celsius*1.8+32` truncated
toward zero (not rounded to nearest), which equals `32 + 9*celsius/5`
with flooring division; celsius = 30 yields 86.  (From 125 on, the
result no longer fits the `byte` it is assigned to.) -/
theorem readTemperature_fahrenheit_truncates (c : Nat) (hc : c ≤ 124)
    (st : State) (dev : DeviceInput)
    (h2 : dev.bytesReceived = 2) (hb : dev.firstByte = c) :
    (readTemperature st dev).1.temp_f = 32 + 9 * c / 5 ∧
    toString (32 + 9 * c / 5) ∈ (readTemperature st dev).2.1 := by
  have key : ∀ n, n ≤ 124 → temp_f_val n = 32 + 9 * n / 5 := by decide
  rw [readTemperature, if_pos h2]
  constructor
  · simp only [hb]
    exact key c hc
  · simp only [hb, key c hc]
    simp

/-- Witness for C4 (amended): celsius = 30 stores Fahrenheit 86. -/
theorem readTemperature_fahrenheit_truncates_witness :
    (readTemperature stDemo ⟨2, 30, true⟩).1.temp_f = 86 := by
  have h :=
    (readTemperature_fahrenheit_truncates 30 (by decide) stDemo ⟨2, 30, true⟩
      rfl rfl).1
  simpa using h

/-- C5: `change_OS_temp` and `change_tHyst_temp` behave exactly like
their calls on the clamped value `clamp(v,0,127)` (so clamping is
silent: identical serial output, no error), the payload byte they put
on the bus after selecting the target register is that clamp, and the
clamp agrees with `min 127 (max 0 v)`. -/
theorem change_threshold_clamps (v w sb : Int) :
    change_OS_temp v w sb =
      change_OS_temp (if v < 0 then 0 else if v > 127 then 127 else v) w sb ∧
    (change_OS_temp v w sb).2 =
      [I2CEvent.beginTransmission 0x48, I2CEvent.write 0x03,
       I2CEvent.write (toByte (if v < 0 then 0 else if v > 127 then 127 else v)),
       I2CEvent.endTransmission, I2CEvent.beginTransmission 0x48,
       I2CEvent.write 0x00, I2CEvent.endTransmission] ∧
    change_tHyst_temp v w sb =
      change_tHyst_temp (if v < 0 then 0 else if v > 127 then 127 else v) w sb ∧
    (change_tHyst_temp v w sb).2 =
      [I2CEvent.beginTransmission 0x48, I2CEvent.write 0x02,
       I2CEvent.write (toByte (if v < 0 then 0 else if v > 127 then 127 else v)),
       I2CEvent.endTransmission, I2CEvent.beginTransmission 0x48,
       I2CEvent.write 0x00, I2CEvent.endTransmission] ∧
    (if v < 0 then (0 : Int) else if v > 127 then 127 else v) =
      min 127 (max 0 v) ∧
    ((toByte (if v < 0 then 0 else if v > 127 then 127 else v) : Int) =
      min 127 (max 0 v)) := by
  by_cases hv : v < 0
  · have hv' : ¬ (0 : Int) < 0 := by omega
    have hv127 : ¬ (0 : Int) > 127 := by omega
    refine ⟨?_, ?_, ?_, ?_, by omega, ?_⟩
    · simp [change_OS_temp, hv, hv', hv127]
    · simp [change_OS_temp, change_to_OS_reg, change_to_temp_reg, hv]
    · simp [change_tHyst_temp, hv, hv', hv127]
    · simp [change_tHyst_temp, change_to_tHyst_reg, change_to_temp_reg, hv]
    · rw [if_pos hv]
      rw [toByte]
      omega
  · by_cases hw : v > 127
    · have h1 : ¬ (127 : Int) < 0 := by omega
      have h2 : ¬ (127 : Int) > 127 := by omega
      refine ⟨?_, ?_, ?_, ?_, by omega, ?_⟩
      · simp [change_OS_temp, hv, hw, h1, h2]
      · simp [change_OS_temp, change_to_OS_reg, change_to_temp_reg, hv, hw]
      · simp [change_tHyst_temp, hv, hw, h1, h2]
      · simp [change_tHyst_temp, change_to_tHyst_reg, change_to_temp_reg, hv, hw]
      · rw [if_neg hv, if_pos hw]
        rw [toByte]
        omega
    · refine ⟨?_, ?_, ?_, ?_, by omega, ?_⟩
      · simp [change_OS_temp, hv, hw]
      · simp [change_OS_temp, change_to_OS_reg, change_to_temp_reg, hv, hw]
      · simp [change_tHyst_temp, hv, hw]
      · simp [change_tHyst_temp, change_to_tHyst_reg, change_to_temp_reg, hv, hw]
      · rw [if_neg hv, if_neg hw]
        rw [toByte]
        omega

/-- C6: every operation that selects a non-Temperature register ends,
for every possible transaction status, by selecting the Temperature
register 0x00 (the trailing `beginTransmission`/`write 0x00`/
`endTransmission` of `change_to_temp_reg`), and `readTemperature`
issues no pointer write at all. -/
theorem register_ops_park_on_temp :
    (∀ v w sb : Int, ∃ pre, (change_OS_temp v w sb).2 =
        pre ++ [I2CEvent.beginTransmission 0x48, I2CEvent.write 0x00,
          I2CEvent.endTransmission]) ∧
    (∀ v w sb : Int, ∃ pre, (change_tHyst_temp v w sb).2 =
        pre ++ [I2CEvent.beginTransmission 0x48, I2CEvent.write 0x00,
          I2CEvent.endTransmission]) ∧
    (∀ w sb : Int, ∃ pre, (setConfigConditions w sb).2 =
        pre ++ [I2CEvent.beginTransmission 0x48, I2CEvent.write 0x00,
          I2CEvent.endTransmission]) ∧
    (∀ (st : State) (dev : DeviceInput),
       (readTemperature st dev).2.2 = [I2CEvent.requestFrom 0x48 2]) :=
  ⟨fun v _w _sb =>
     ⟨[I2CEvent.beginTransmission 0x48, I2CEvent.write 0x03,
       I2CEvent.write (toByte (if v < 0 then 0 else if v > 127 then 127 else v)),
       I2CEvent.endTransmission], rfl⟩,
   fun v _w _sb =>
     ⟨[I2CEvent.beginTransmission 0x48, I2CEvent.write 0x02,
       I2CEvent.write (toByte (if v < 0 then 0 else if v > 127 then 127 else v)),
       I2CEvent.endTransmission], rfl⟩,
   fun _w _sb =>
     ⟨[I2CEvent.beginTransmission 0x48, I2CEvent.write 0x01,
       I2CEvent.write 0x08, I2CEvent.endTransmission], rfl⟩,
   readTemperature_events⟩

/-- C7: an input line matching none of the seven command words leaves
the whole state unchanged, issues no I2C traffic, and reports an
unknown-command error echoing the input. -/
theorem unknown_command_is_noop (st : State) (cmd : List Char) (env : Env)
    (h1 : aStartsWith cmd sSET_OS = false)
    (h2 : aStartsWith cmd sSET_DELAY = false)
    (h3 : aStartsWith cmd sHELP = false)
    (h4 : aStartsWith cmd sGET_TEMP = false)
    (h5 : aStartsWith cmd sSET_HYST = false)
    (h6 : aStartsWith cmd sPAUSE = false)
    (h7 : aStartsWith cmd sSTART = false) :
    processCommand st cmd env =
      (st, ["Error - Unknown command: ", String.mk cmd ++ "\n"], []) :=
  pc_unknown st cmd env h1 h2 h3 h4 h5 h6 h7

/-- Witness for C7: the line `FOO` is rejected with an echo and no
state change. -/
theorem unknown_command_is_noop_witness :
    processCommand stDemo (("FOO").data) envDemo =
      (stDemo, ["Error - Unknown command: ", String.mk (("FOO").data) ++ "\n"],
       []) :=
  unknown_command_is_noop stDemo (("FOO").data) envDemo (by decide) (by decide)
    (by decide) (by decide) (by decide) (by decide) (by decide)

/-- C8: a `PAUSE` line clears `outputFlag`; while the flag is 0 and no
`START` line arrives, further iterations never perform the periodic
read — every `requestFrom` on the bus comes from a `GET_TEMP` line —
and a `GET_TEMP` line processed while paused still forces exactly one
`readTemperature` transaction. -/
theorem pause_suppresses_polling :
    (∀ (st : State) (cmd : List Char) (env : Env),
        aStartsWith cmd sPAUSE = true →
        processCommand st cmd env = ({ st with outputFlag := 0 }, [], [])) ∧
    (∀ (st : State) (inputs : List (Option (List Char) × Env)),
        st.outputFlag = 0 →
        (∀ c e, (some c, e) ∈ inputs → aStartsWith (aTrim c) sSTART = false) →
        (runLoop st inputs).1.outputFlag = 0 ∧
        countReq (runLoop st inputs).2.2 = countGetTemp inputs) ∧
    (∀ (st : State) (cmd : List Char) (env : Env),
        st.outputFlag = 0 → aStartsWith (aTrim cmd) sGET_TEMP = true →
        countReq (loopIter st (some cmd) env).2.2 = 1) :=
  ⟨fun st cmd env h => pc_pause st cmd env h,
   fun st inputs h0 hns => runLoop_paused st inputs h0 hns,
   fun st cmd env h0 hg => by
     rw [loopIter_some_paused st cmd env h0, pc_getTemp _ _ _ hg]
     rw [countReq, readTemperature_events]
     rfl⟩

/-- Witness for C8: `PAUSE` clears the flag from a polling state, and a
`GET_TEMP` line processed on a paused state forces one transaction. -/
theorem pause_suppresses_polling_witness :
    processCommand { stDemo with outputFlag := 1 } (("PAUSE").data) envDemo =
      ({ stDemo with outputFlag := 0 }, [], []) ∧
    countReq (loopIter stDemo (some (("GET_TEMP").data)) envDemo).2.2 = 1 := by
  constructor
  · exact pause_suppresses_polling.1 { stDemo with outputFlag := 1 }
      (("PAUSE").data) envDemo (by decide)
  · exact pause_suppresses_polling.2.2 stDemo (("GET_TEMP").data) envDemo rfl
      (by decide)

/-- C9: a `SET_OS` or `SET_HYST` line whose argument text is
non-numeric converts to 0, which passes the range check, so the
threshold is stored as 0, 0 is written to the register, and the normal
confirmation (no error) is printed. -/
theorem nonnumeric_threshold_defaults_to_zero (st : State) (cmd : List Char)
    (env : Env) :
    (aStartsWith cmd sSET_OS = true →
       isNumericStart (argChars cmd 7) = false →
       parseArg cmd 7 = 0 ∧
       processCommand st cmd env =
         ({ st with user_T_OS := 0 },
          (change_OS_temp 0 env.wStatus env.sbStatus).1 ++
            ["Overtemp threshold set to: ", toString (0 : Int) ++ "\n"],
          (change_OS_temp 0 env.wStatus env.sbStatus).2)) ∧
    (aStartsWith cmd sSET_HYST = true →
       isNumericStart (argChars cmd 9) = false →
       parseArg cmd 9 = 0 ∧
       processCommand st cmd env =
         ({ st with user_T_hyst := 0 },
          (change_tHyst_temp 0 env.wStatus env.sbStatus).1 ++
            ["T_hyst set to: ", toString (0 : Int) ++ "\n"],
          (change_tHyst_temp 0 env.wStatus env.sbStatus).2)) := by
  constructor
  · intro h hn
    have hz : parseArg cmd 7 = 0 := atol_eq_zero_of_nonNumeric hn
    refine ⟨hz, ?_⟩
    have hb := pc_setOS_in st cmd env h hz.ge (hz.le.trans (by norm_num))
    rw [hz] at hb
    exact hb
  · intro h hn
    have hz : parseArg cmd 9 = 0 := atol_eq_zero_of_nonNumeric hn
    refine ⟨hz, ?_⟩
    have hb := pc_setHyst_in st cmd env h hz.ge (hz.le.trans (by norm_num))
    rw [hz] at hb
    exact hb

/-- Witness for C9: `SET_OS abc` stores threshold 0 with a
confirmation. -/
theorem nonnumeric_threshold_defaults_to_zero_witness :
    processCommand stDemo (("SET_OS abc").data) envDemo =
      ({ stDemo with user_T_OS := 0 },
       (change_OS_temp 0 0 0).1 ++
         ["Overtemp threshold set to: ", toString (0 : Int) ++ "\n"],
       (change_OS_temp 0 0 0).2) :=
  ((nonnumeric_threshold_defaults_to_zero stDemo (("SET_OS abc").data)
      envDemo).1 (by decide) (by decide)).2

/-- C10: right after `setup` the polling flag is 0 (so the main loop
reads no temperature until a `START` command) and the state is
`user_T_OS = 30`, `user_T_hyst = 29`, `loop_delay = 1000`,
`temp_c = temp_f = 0`. -/
theorem setup_initial_state (w1 sb1 w2 sb2 : Int) :
    (setup w1 sb1 w2 sb2).1 =
      { temp_c := 0, temp_f := 0, outputFlag := 0, user_T_OS := 30,
        user_T_hyst := 29, loop_delay := 1000 } ∧
    ∀ envs : List Env,
      runLoop (setup w1 sb1 w2 sb2).1 (envs.map fun e => (none, e)) =
        ((setup w1 sb1 w2 sb2).1, [], []) :=
  ⟨rfl, fun envs => runLoop_no_input _ rfl envs⟩
